import Mathlib

/-!
# Verification of the Rag-ChatBot evaluation subsystem

Shallow embedding, in Lean 4, of the evaluation components of the
Rag-ChatBot repository:

* `src/evaluator/logging.py`   — `EvaluationLogger` (JSON log with merge-by-query)
* `src/evaluator/retrieval_eval.py` — `RetrievalEvaluator` metric functions
* `src/evaluator/faithfulness_eval.py` — `FaithfulnessEvaluator`
* `src/evaluator/evaluation_model.py` — judge invokers with retry/backoff
* `src/test_retrieval_parallel.py` — parallel batch driver

Modelling conventions:

* Python floats are modelled as `ℚ`; the scores involved are produced by
  exact arithmetic on library outputs, and none of the verified properties
  depend on binary rounding.
* External collaborators (sentence-embedding model, BM25 library, the
  chat-completion endpoints) are parameters of the embedded functions:
  each embedded function receives the values those collaborators return.
* Fallible Python code is embedded as `Except PyErr _`; a `.error` value
  models an uncaught Python exception.
* Python dictionaries are association lists that preserve insertion order,
  as Python dicts do.
-/

namespace RagEval

/-- Python exception values, as far as the embedded code distinguishes them. -/
inductive PyErr where
  | attributeError (msg : String)
  | typeError (msg : String)
  | other (msg : String)
  deriving DecidableEq, Repr

/-- `pat` occurs as a contiguous sublist of `s` (Python's `pat in s` on strings). -/
def listContainsSub : List Char → List Char → Bool
  | [], pat => pat.isEmpty
  | c :: rest, pat => pat.isPrefixOf (c :: rest) || listContainsSub rest pat

/-- Python's substring test `pat in s`. -/
def strContains (s pat : String) : Bool :=
  listContainsSub s.toList pat.toList

/-- Lower-case an ASCII letter (Python `str.lower` on the characters the
embedded code compares). -/
def charLower (c : Char) : Char :=
  if 'A' ≤ c && c ≤ 'Z' then Char.ofNat (c.toNat + 32) else c

/-- Python `s.lower()`. -/
def pyLower (s : String) : String := ⟨s.data.map charLower⟩

/-- Python `s.strip()`: remove whitespace from both ends. -/
def pyStrip (s : String) : String :=
  ⟨((s.data.dropWhile Char.isWhitespace).reverse.dropWhile Char.isWhitespace).reverse⟩

/-! ## `EvaluationLogger` (src/evaluator/logging.py)

A persisted log is a list of records; a record is a Python dict whose
values the logger never inspects (beyond equality on the `"query"` field),
so records are association lists over an arbitrary value type `V` with
decidable equality. -/

/-- A Python dict with `String` keys and `V` values, in insertion order. -/
abbrev Record (V : Type) := List (String × V)

/-- Python `d.get(k)`: the value at the first occurrence of `k`, else `None`. -/
def dictGet {V : Type} (r : Record V) (k : String) : Option V :=
  match r with
  | [] => none
  | (k', v) :: rest => if k' = k then some v else dictGet rest k

/-- Python `d[k] = v`: replace the value at `k` in place if present, else append. -/
def dictSet {V : Type} (r : Record V) (k : String) (v : V) : Record V :=
  match r with
  | [] => [(k, v)]
  | (k', v') :: rest =>
      if k' = k then (k', v) :: rest else (k', v') :: dictSet rest k v

/-- Python `old.update(new)`: set every key/value pair of `new` in `old`,
in `new`'s order. -/
def dictUpdate {V : Type} (old new : Record V) : Record V :=
  new.foldl (fun acc kv => dictSet acc kv.1 kv.2) old

/-- `EvaluationLogger.log_to_json` (logging.py lines 15–33), as the state
transformation it applies to the parsed JSON list: if the log is non-empty
and its last record has the same `"query"` value as the incoming record
(`existing_data[-1].get("query") == data.get("query")`, where two missing
keys also compare equal), the incoming record is merged into the last one
with `dict.update`; otherwise it is appended. -/
def log_to_json {V : Type} [DecidableEq V]
    (existing_data : List (Record V)) (data : Record V) : List (Record V) :=
  match existing_data.getLast? with
  | none => existing_data ++ [data]
  | some last =>
      if dictGet last "query" = dictGet data "query" then
        existing_data.dropLast ++ [dictUpdate last data]
      else
        existing_data ++ [data]

/-- The number of records in a log whose `"query"` field holds `q`. -/
def countQuery {V : Type} [DecidableEq V] (log : List (Record V)) (q : V) : Nat :=
  log.countP (fun r => dictGet r "query" = some q)

/-! ## The parallel batch driver (src/test_retrieval_parallel.py)

`evaluate_entry` wraps one query's whole evaluation in `try/except`; the
`except` branch calls `parallel_logger.log_error(...)`.  The methods that
`EvaluationLogger` actually defines are listed verbatim from logging.py. -/

/-- The method names defined by `class EvaluationLogger` in logging.py. -/
def loggerMethods : List String :=
  ["log", "log_to_json", "generate_csv", "_generate_retrieval_csv",
   "_generate_faithfulness_csv", "read_last_entry"]

/-- Whether `EvaluationLogger` has a method of the given name; calling a
missing method raises `AttributeError` in Python. -/
def loggerHasMethod (m : String) : Bool := loggerMethods.contains m

/-- `evaluate_entry` (test_retrieval_parallel.py lines 19–66), abstracted
over the outcome `body` of the `try` block for one dataset entry (the
retrieval, metric computation and logging for that query).  On success the
record is returned; on an exception the `except` branch runs: it calls
`parallel_logger.log_error(...)`, which only succeeds if `EvaluationLogger`
has a `log_error` method — otherwise the lookup itself raises
`AttributeError`, which escapes the handler. -/
def evaluate_entry {V : Type} (body : Except PyErr (Record V)) :
    Except PyErr (Option (Record V)) :=
  match body with
  | .ok r => .ok (some r)
  | .error _ =>
      if loggerHasMethod "log_error" then
        .ok none
      else
        .error (.attributeError "EvaluationLogger object has no attribute log_error")

/-- `Pool.map(evaluate_entry, ground_truth_qna)`: an exception raised in a
worker is re-raised in the parent by `pool.map`, halting the batch. -/
def run_batch {V : Type} (bodies : List (Except PyErr (Record V))) :
    Except PyErr (List (Option (Record V))) :=
  bodies.mapM evaluate_entry

/-! ## Numeric helpers shared by the metric functions -/

/-- Python `min` of a non-empty list, given as head and tail. -/
def pyMin (x : ℚ) (xs : List ℚ) : ℚ := xs.foldl min x

/-- Python `max` of a non-empty list, given as head and tail. -/
def pyMax (x : ℚ) (xs : List ℚ) : ℚ := xs.foldl max x

/-- Round-half-to-even on `ℚ`, the rounding Python's `round` uses. -/
def roundHalfEven (x : ℚ) : ℤ :=
  let f := ⌊x⌋
  let r := x - f
  if r < 1/2 then f
  else if 1/2 < r then f + 1
  else if 2 ∣ f then f else f + 1

/-- Python `round(x, 2)`. -/
def pyRound2 (x : ℚ) : ℚ := (roundHalfEven (x * 100) : ℚ) / 100

/-- The value a metric function returns: a scalar, a dict of named
sub-scores, or a sentinel string. -/
inductive MetricOut where
  | num (q : ℚ)
  | dict (d : List (String × ℚ))
  | str (s : String)
  deriving DecidableEq, Repr

/-! ## `RetrievalEvaluator.compute_context_precision`
(retrieval_eval.py lines 41–79)

The sentence-embedding model and the BM25 library are external
collaborators: the embedded function takes the query↔blob cosine
similarity and the per-chunk raw BM25 scores (one per retrieved chunk,
`bm25.get_scores(tokenized_query)`) as arguments.  Each embedded metric
returns its value paired with a `Bool` recording whether it emitted the
`global_logger.warning` of its empty-input guard. -/

/-- The min-max normalisation of the raw BM25 scores in
`compute_context_precision` (lines 58–68): if all scores are equal
(including the all-zero case) every normalised score is 10, otherwise
each score `s` maps to `10 * (s - min) / (max - min)`. -/
def bm25NormalizedScores (bm25_scores : List ℚ) : List ℚ :=
  match bm25_scores with
  | [] => []
  | s₀ :: rest =>
      let min_score := pyMin s₀ rest
      let max_score := pyMax s₀ rest
      if max_score = min_score then
        (s₀ :: rest).map (fun _ => (10 : ℚ))
      else
        (s₀ :: rest).map (fun s => 10 * (s - min_score) / (max_score - min_score))

/-- `compute_context_precision`, with the cosine similarity of the query
and the concatenated chunks (`cosine_sim`, in `[-1, 1]`) and the raw BM25
scores supplied by the external collaborators.  Empty input returns `0.0`
after a warning; otherwise the result is the dict of rounded cosine, BM25
and combined scores. -/
def compute_context_precision (cosine_sim : ℚ) (bm25_scores : List ℚ)
    (retrieved_chunks : List String) : MetricOut × Bool :=
  if retrieved_chunks = [] then
    (.num 0, true)
  else
    let cosine_score := cosine_sim * 10
    let normalized_scores := bm25NormalizedScores bm25_scores
    let bm25_avg_score := normalized_scores.sum / normalized_scores.length
    let precision_score := (cosine_score + bm25_avg_score) / 2
    (.dict [("cosine_score", pyRound2 cosine_score),
            ("bm25_score", pyRound2 bm25_avg_score),
            ("combined_precision_score", pyRound2 precision_score)], false)

/-! ## `RetrievalEvaluator.compute_context_precision_chunkwise`
(retrieval_eval.py lines 110–168)

Per-chunk cosine similarities and raw BM25 scores come from the external
collaborators and are arguments. -/

/-- The BM25 part of `compute_context_precision_chunkwise`
(lines 147–154): `max_bm25 = max(bm25_scores) if len > 0 else 0.0`; if
`max_bm25 == 0` the fraction is `0.0`, otherwise it is the fraction of
chunks whose score is at least half the maximum. -/
def bm25PrecisionFraction (bm25_scores : List ℚ) : ℚ :=
  let max_bm25 : ℚ :=
    match bm25_scores with
    | [] => 0
    | s₀ :: rest => pyMax s₀ rest
  if max_bm25 = 0 then 0
  else
    let relevant_bm25_count := (bm25_scores.filter (fun s => 0.5 * max_bm25 ≤ s)).length
    (relevant_bm25_count : ℚ) / bm25_scores.length

/-- `compute_context_precision_chunkwise`, with the per-chunk cosine
similarities (`cos_sims`, one per chunk) and raw BM25 scores supplied.
Empty input returns the zeroed dict after a warning. -/
def compute_context_precision_chunkwise (cos_sims : List ℚ) (bm25_scores : List ℚ)
    (retrieved_chunks : List String) (threshold : ℚ) : MetricOut × Bool :=
  if retrieved_chunks = [] then
    (.dict [("chunkwise_cosine_precision", 0), ("chunkwise_bm25_precision", 0),
            ("combined_precision", 0)], true)
  else
    let relevant_cosine_count := (cos_sims.filter (fun c => threshold ≤ c)).length
    let cosine_precision_fraction := (relevant_cosine_count : ℚ) / retrieved_chunks.length
    let bm25_precision_fraction := bm25PrecisionFraction bm25_scores
    let combined_precision_fraction := (cosine_precision_fraction + bm25_precision_fraction) / 2
    (.dict [("chunkwise_cosine_precision", pyRound2 (cosine_precision_fraction * 10)),
            ("chunkwise_bm25_precision", pyRound2 (bm25_precision_fraction * 10)),
            ("combined_precision_score", pyRound2 (combined_precision_fraction * 10))], false)

/-! ## `RetrievalEvaluator.compute_negative_retrieval`
(retrieval_eval.py lines 354–378; present in the source as a commented-out
method — it is the non-LLM negative-retrieval metric the spec describes)

For each retrieved chunk the method compares its cosine similarity with
the query against `threshold` and its BM25 score against
`bm25_threshold`; a chunk is counted irrelevant only when
`cosine_sim < threshold and bm25_score < bm25_threshold`. -/

/-- The per-chunk irrelevance flags of `compute_negative_retrieval`: the
`i`-th flag is true iff the `i`-th chunk's cosine similarity is below
`threshold` AND its BM25 score is below `bm25_threshold`. -/
def negativeRetrievalFlags (cos_sims bm25_scores : List ℚ)
    (threshold bm25_threshold : ℚ) : List Bool :=
  List.zipWith (fun c b => decide (c < threshold) && decide (b < bm25_threshold))
    cos_sims bm25_scores

/-- `compute_negative_retrieval`: ten times the fraction of flagged
chunks; an empty chunk list returns `10.0` after a warning. -/
def compute_negative_retrieval (cos_sims bm25_scores : List ℚ)
    (retrieved_chunks : List String)
    (threshold bm25_threshold : ℚ) : ℚ × Bool :=
  if retrieved_chunks = [] then
    (10, true)
  else
    let irrelevant_count :=
      ((negativeRetrievalFlags cos_sims bm25_scores threshold bm25_threshold).filter
        (fun fl => fl)).length
    ((irrelevant_count : ℚ) / retrieved_chunks.length * 10, false)

/-! ## The remaining guarded metric functions

Each begins with the same empty-input guard (`if not retrieved_chunks:`)
and otherwise combines externally produced similarity scores.  The
non-empty branch's external computation is supplied as an argument. -/

/-- `compute_context_recall` (retrieval_eval.py lines 82–107): `0.0` plus
a warning on empty input; otherwise the mean of the externally produced
cosine, ROUGE-1 and BERTScore signals, each scaled to 0–10. -/
def compute_context_recall (recall_cosine rouge1_f bert_f1 : ℚ)
    (retrieved_chunks : List String) : MetricOut × Bool :=
  if retrieved_chunks = [] then
    (.num 0, true)
  else
    (.num ((recall_cosine * 10 + rouge1_f * 10 + bert_f1 * 10) / 3), false)

/-- `compute_context_recall_chunkwise` (retrieval_eval.py lines 171–194):
`0.0` plus a warning on empty input; otherwise ten times the mean of the
per-chunk cosine similarities with the ground truth. -/
def compute_context_recall_chunkwise (gt_cos_sims : List ℚ)
    (retrieved_chunks : List String) : MetricOut × Bool :=
  if retrieved_chunks = [] then
    (.num 0, true)
  else
    (.num (gt_cos_sims.sum / gt_cos_sims.length * 10), false)

/-- The common shape of the four LLM-judged retrieval metrics
(`compute_context_precision_with_llm`, `compute_context_recall_with_llm`,
`compute_retrieval_precision_with_llm`,
`compute_negative_retrieval_with_llm`, retrieval_eval.py lines 221–456):
on an empty chunk list each returns the string `"Error"` after a warning;
otherwise it scores the judge's response (modelled below by
`parse_llm_score` combined with `handle_llm_exception`). -/
def llmMetricEmptyGuard (nonempty_result : MetricOut)
    (retrieved_chunks : List String) : MetricOut × Bool :=
  if retrieved_chunks = [] then
    (.str "Error", true)
  else
    (nonempty_result, false)

/-! ## Judge invokers (src/evaluator/evaluation_model.py)

`ChatGPTEvaluationModel.evaluate` (lines 23–46) makes up to `retries = 3`
attempts, sleeping `delay` seconds after each failed non-final attempt and
doubling `delay` (initially 2); after the final failed attempt it returns
`f"Error: {e}"` instead of raising.  The outcome of the `attempt`-th API
call is given by the oracle `api`. -/

/-- The outcome of one `openai.ChatCompletion.create` call: either the
response content (before `.strip()`) or a raised exception's message. -/
inductive ApiAttempt where
  | ok (content : String)
  | fail (msg : String)
  deriving DecidableEq, Repr

/-- One run of the retry loop from attempt `attempt` with current backoff
`delay`, returning the result string, the number of API calls made, and
the list of sleep durations (in order). -/
def chatgptEvalFrom (api : Nat → ApiAttempt) (retries attempt delay : Nat) :
    String × Nat × List Nat :=
  match api attempt with
  | .ok content => (pyStrip content, 1, [])
  | .fail msg =>
      if h : attempt + 1 < retries then
        let rest := chatgptEvalFrom api retries (attempt + 1) (delay * 2)
        (rest.1, rest.2.1 + 1, delay :: rest.2.2)
      else
        ("Error: " ++ msg, 1, [])
  termination_by retries - attempt
  decreasing_by omega

/-- `ChatGPTEvaluationModel.evaluate`: 3 retries, initial delay 2. -/
def chatgptEvaluate (api : Nat → ApiAttempt) : String × Nat × List Nat :=
  chatgptEvalFrom api 3 0 2

/-- The outcome of one `requests.post` call in
`LMStudioEvaluationModel.evaluate` (lines 54–84): a raised exception, or a
response with its status code, parsed message content, and raw text. -/
inductive HttpAttempt where
  | exn (msg : String)
  | resp (status : Nat) (content : String) (text : String)
  deriving DecidableEq, Repr

/-- The retry loop of `LMStudioEvaluationModel.evaluate`: a 200 response
returns the stripped content; any other status or an exception sleeps and
doubles the delay unless the attempt was the last, in which case an error
string is returned. -/
def lmstudioEvalFrom (api : Nat → HttpAttempt) (retries attempt delay : Nat) :
    String × Nat × List Nat :=
  match api attempt with
  | .resp status content text =>
      if status = 200 then (pyStrip content, 1, [])
      else if h : attempt + 1 < retries then
        let rest := lmstudioEvalFrom api retries (attempt + 1) (delay * 2)
        (rest.1, rest.2.1 + 1, delay :: rest.2.2)
      else
        ("Error " ++ toString status ++ ": " ++ text, 1, [])
  | .exn msg =>
      if h : attempt + 1 < retries then
        let rest := lmstudioEvalFrom api retries (attempt + 1) (delay * 2)
        (rest.1, rest.2.1 + 1, delay :: rest.2.2)
      else
        ("Error: " ++ msg, 1, [])
  termination_by retries - attempt
  decreasing_by all_goals omega

/-- `LMStudioEvaluationModel.evaluate`: 3 retries, initial delay 2. -/
def lmstudioEvaluate (api : Nat → HttpAttempt) : String × Nat × List Nat :=
  lmstudioEvalFrom api 3 0 2

/-- `RetrievalEvaluator._handle_llm_exception` (retrieval_eval.py lines
481–486): `"FDTKE"` when the lower-cased exception message contains
`"resource has been exhausted"`, else `"Error"`. -/
def handle_llm_exception (e : String) : String :=
  if strContains (pyLower e) "resource has been exhausted" then "FDTKE" else "Error"

/-! ## `_parse_llm_score`
(retrieval_eval.py lines 459–466 and faithfulness_eval.py lines 209–216) -/

/-- The numeric value of a list of decimal digit characters. -/
def natOfDigits (ds : List Char) : Nat :=
  ds.foldl (fun a c => a * 10 + (c.toNat - 48)) 0

/-- Parse an unsigned decimal literal (`"7"`, `"7.5"`, `".5"`, `"7."`),
requiring at least one digit and no other characters. -/
def parseUnsignedDecimal (s : List Char) : Option ℚ :=
  let intPart := s.takeWhile Char.isDigit
  let rest := s.dropWhile Char.isDigit
  match rest with
  | [] => if intPart.isEmpty then none else some (natOfDigits intPart)
  | '.' :: rest₂ =>
      let fracPart := rest₂.takeWhile Char.isDigit
      let rest₃ := rest₂.dropWhile Char.isDigit
      if rest₃.isEmpty && !(intPart.isEmpty && fracPart.isEmpty) then
        some ((natOfDigits intPart : ℚ) + (natOfDigits fracPart : ℚ) / 10 ^ fracPart.length)
      else none
  | _ => none

/-- Python `float(s)` on an already-stripped string, for plain decimal
literals with an optional sign.  (Exponent notation, `inf`/`nan` and
digit-group underscores are accepted by Python but play no role in the
properties below; they are not modelled.)  `none` models a raised
`ValueError`. -/
def pyFloatOfString (s : String) : Option ℚ :=
  match s.toList with
  | '+' :: rest => parseUnsignedDecimal rest
  | '-' :: rest => (parseUnsignedDecimal rest).map Neg.neg
  | l => parseUnsignedDecimal l

/-- `_parse_llm_score(response)` where `response` is the `str` returned by
the evaluation model's `evaluate`: it first tries
`float(response.strip())`; on `ValueError` the fallback body evaluates
`re.search(r"(\d+(\.\d+)?)", response.text)` — but a Python `str` has no
attribute `text`, so the attribute access raises `AttributeError` before
the regex (and the `-1` sentinel) can be reached. -/
def parse_llm_score (response : String) : Except PyErr ℚ :=
  match pyFloatOfString (pyStrip response) with
  | some v => .ok v
  | none => .error (.attributeError "str object has no attribute text")

/-- The fallback that the spec describes for `_parse_llm_score`: on a
failed float parse, extract the first `\d+(\.\d+)?` match of the response
and return it as a float, or `-1` when no digit occurs.  Stated here only
to express what the documented behaviour would return; the code's own
fallback is the one in `parse_llm_score`. -/
def specParseFallbackScore (response : String) : ℚ :=
  match pyFloatOfString (pyStrip response) with
  | some v => v
  | none =>
      let l := response.toList.dropWhile (fun c => !c.isDigit)
      if l.isEmpty then -1
      else
        let intPart := l.takeWhile Char.isDigit
        let rest := l.dropWhile Char.isDigit
        match rest with
        | '.' :: rest₂ =>
            let fracPart := rest₂.takeWhile Char.isDigit
            if fracPart.isEmpty then (natOfDigits intPart : ℚ)
            else (natOfDigits intPart : ℚ) + (natOfDigits fracPart : ℚ) / 10 ^ fracPart.length
        | _ => (natOfDigits intPart : ℚ)

/-! ## `FaithfulnessEvaluator` (src/evaluator/faithfulness_eval.py)

`sim a b` stands for the external cosine similarity (in `[-1, 1]`) of the
embeddings of texts `a` and `b`; `rougeL` and `bert` for the external
ROUGE-L and BERTScore F1 primitives (in `[0, 1]`). -/

/-- `compute_blobwise_similarity` (lines 87–96): no empty-input guard —
the generated answer is compared with `" ".join(retrieved_chunks)` (the
empty string when there are no chunks), scaled by 10, and no warning is
emitted on any input. -/
def compute_blobwise_similarity (sim : String → String → ℚ)
    (query : String) (retrieved_chunks : List String) (generated_answer : String) :
    ℚ × Bool :=
  (sim generated_answer (String.intercalate " " retrieved_chunks) * 10, false)

/-- The `(avg, max)` chunkwise similarity scores of
`compute_chunkwise_similarity` on a non-empty chunk list, each rounded to
two places. -/
def chunkwiseScores (sim : String → String → ℚ) (generated_answer : String)
    (retrieved_chunks : List String) : ℚ × ℚ :=
  let similarities := retrieved_chunks.map (fun chunk => sim generated_answer chunk * 10)
  let avg_score := similarities.sum / similarities.length
  let max_score : ℚ := match similarities with | [] => 0 | s :: rest => pyMax s rest
  (pyRound2 avg_score, pyRound2 max_score)

/-- `compute_chunkwise_similarity` (lines 97–118): the zeroed dict plus a
warning on empty input; otherwise the dict of rounded average and maximum
per-chunk similarity. -/
def compute_chunkwise_similarity (sim : String → String → ℚ)
    (generated_answer : String) (retrieved_chunks : List String) :
    MetricOut × Bool :=
  if retrieved_chunks = [] then
    (.dict [("avg_chunkwise_score", 0), ("max_chunkwise_score", 0)], true)
  else
    let p := chunkwiseScores sim generated_answer retrieved_chunks
    (.dict [("avg_chunkwise_score", p.1), ("max_chunkwise_score", p.2)], false)

/-- `compute_faithful_coverage(self, ground_truth_answer, generated_answer)`
(lines 121–143): `0.0` when either stripped argument is empty, otherwise
the rounded mean of the ROUGE-L F1 and BERTScore F1, each scaled by 10. -/
def compute_faithful_coverage (rougeL bert : String → String → ℚ)
    (ground_truth_answer generated_answer : String) : ℚ :=
  if pyStrip ground_truth_answer = "" || pyStrip generated_answer = "" then 0
  else
    pyRound2 ((rougeL ground_truth_answer generated_answer * 10
      + bert generated_answer ground_truth_answer * 10) / 2)

/-- A positional Python call of `compute_faithful_coverage`, whose `def`
declares exactly two positional parameters besides `self` (line 121).
Python raises `TypeError` when the supplied argument count differs from
the declared one. -/
def callFaithfulCoverage (rougeL bert : String → String → ℚ)
    (args : List String) : Except PyErr ℚ :=
  match args with
  | [gt, gen] => .ok (compute_faithful_coverage rougeL bert gt gen)
  | _ => .error (.typeError
      ("compute_faithful_coverage takes 3 positional arguments but "
        ++ toString (args.length + 1) ++ " were given"))

/-- `FaithfulnessEvaluator.evaluate_faithfulness` (lines 34–83), with the
external retrieval and generation outcomes (`retrieved_chunks`,
`generated_answer`) and the judge responses for the two LLM metrics
supplied.  It returns `None` on empty retrieval; otherwise it computes
the blobwise and chunkwise similarities, then calls
`self.compute_faithful_coverage(query, ground_truth_answer,
generated_answer)` — three positional arguments (line 52) — and, if that
call returns, the LLM metrics (whose exceptions lines 56–62 turn into
`"FDTKE"`) and the result record. -/
def evaluate_faithfulness (sim rougeL bert : String → String → ℚ)
    (judgeResp coverageResp : String)
    (query ground_truth_answer : String)
    (retrieved_chunks : List String) (generated_answer : String) :
    Except PyErr (Option (Record MetricOut)) :=
  if retrieved_chunks = [] then .ok none
  else
    let blobwise := (compute_blobwise_similarity sim query retrieved_chunks generated_answer).1
    let chunkwise := chunkwiseScores sim generated_answer retrieved_chunks
    match callFaithfulCoverage rougeL bert [query, ground_truth_answer, generated_answer] with
    | .error e => .error e
    | .ok faithful_coverage =>
        let llmScores : MetricOut × MetricOut :=
          match parse_llm_score judgeResp with
          | .error _ => (.str "FDTKE", .str "FDTKE")
          | .ok s₁ =>
              match parse_llm_score coverageResp with
              | .error _ => (.str "FDTKE", .str "FDTKE")
              | .ok s₂ => (.num s₁, .num s₂)
        .ok (some
          [("query", .str query),
           ("generated_answer", .str generated_answer),
           ("ground_truth_answer", .str ground_truth_answer),
           ("blobwise_answer_similarity", .num blobwise),
           ("avg_chunkwise_answer_similarity", .num chunkwise.1),
           ("max_chunkwise_answer_similarity", .num chunkwise.2),
           ("faithful_coverage", .num faithful_coverage),
           ("faithfulness_llm", llmScores.1),
           ("faithful_coverage_llm", llmScores.2)])

/-! ## Helper lemmas -/

theorem dictGet_dictSet {V : Type} (r : Record V) (k k' : String) (v : V) :
    dictGet (dictSet r k v) k' = if k' = k then some v else dictGet r k' := by
  induction r with
  | nil =>
      simp only [dictSet, dictGet]
      by_cases h : k = k'
      · subst h; simp
      · have h' : ¬ k' = k := fun hh => h hh.symm
        simp [h, h']
  | cons kv rest ih =>
      obtain ⟨k₀, v₀⟩ := kv
      simp only [dictSet]
      by_cases h₀ : k₀ = k
      · subst h₀
        simp only [if_pos rfl, dictGet]
        by_cases h' : k₀ = k'
        · subst h'; simp
        · have h'' : ¬ k' = k₀ := fun hh => h' hh.symm
          simp [h', h'']
      · simp only [if_neg h₀, dictGet]
        by_cases h' : k₀ = k'
        · subst h'
          have h'' : ¬ k₀ = k := h₀
          simp [h'']
        · simp [h', ih]

theorem dictGet_eq_none_of_not_mem_keys {V : Type} (r : Record V) (k : String)
    (h : k ∉ r.map Prod.fst) : dictGet r k = none := by
  induction r with
  | nil => rfl
  | cons kv rest ih =>
      obtain ⟨k₀, v₀⟩ := kv
      simp only [List.map_cons, List.mem_cons] at h
      push_neg at h
      have hne : ¬ k₀ = k := fun hh => h.1 hh.symm
      simp only [dictGet, if_neg hne]
      exact ih h.2

theorem dictGet_foldl_dictSet {V : Type} (new : Record V) (old : Record V) (k : String)
    (hnd : (new.map Prod.fst).Nodup) :
    dictGet (new.foldl (fun acc kv => dictSet acc kv.1 kv.2) old) k =
      (dictGet new k <|> dictGet old k) := by
  induction new generalizing old with
  | nil => simp [dictGet]
  | cons kv rest ih =>
      obtain ⟨k₀, v₀⟩ := kv
      simp only [List.map_cons, List.nodup_cons] at hnd
      simp only [List.foldl_cons]
      rw [ih (dictSet old k₀ v₀) hnd.2]
      by_cases h : k = k₀
      · subst h
        have hrest : dictGet rest k = none :=
          dictGet_eq_none_of_not_mem_keys rest k hnd.1
        simp [dictGet, hrest, dictGet_dictSet]
      · have h' : ¬ k₀ = k := fun hh => h hh.symm
        simp [dictGet, dictGet_dictSet, h, h']

theorem dictGet_dictUpdate {V : Type} (old new : Record V) (k : String)
    (hnd : (new.map Prod.fst).Nodup) :
    dictGet (dictUpdate old new) k = (dictGet new k <|> dictGet old k) :=
  dictGet_foldl_dictSet new old k hnd

theorem countQuery_eq_zero_iff {V : Type} [DecidableEq V] (log : List (Record V)) (q : V) :
    countQuery log q = 0 ↔ ∀ r ∈ log, dictGet r "query" ≠ some q := by
  simp [countQuery, List.countP_eq_zero]

/-- Appending a record to a log whose records never hold query `q` while
the incoming record does not match the last entry's query. -/
theorem log_to_json_append {V : Type} [DecidableEq V]
    (L : List (Record V)) (data : Record V)
    (h : ∀ r ∈ L, dictGet r "query" ≠ dictGet data "query") :
    log_to_json L data = L ++ [data] := by
  unfold log_to_json
  match hL : L.getLast? with
  | none => rfl
  | some last =>
      have hmem : last ∈ L := List.mem_of_mem_getLast? hL
      simp [h last hmem]

theorem pyMin_all_eq (c : ℚ) (xs : List ℚ) (hall : ∀ x ∈ xs, x = c) :
    pyMin c xs = c := by
  induction xs with
  | nil => rfl
  | cons x rest ih =>
      have hx : x = c := hall x (by simp)
      have : ∀ y ∈ rest, y = c := fun y hy => hall y (by simp [hy])
      simp [pyMin, hx, List.foldl_cons] at ih ⊢
      simpa [pyMin] using ih this

theorem pyMax_all_eq (c : ℚ) (xs : List ℚ) (hall : ∀ x ∈ xs, x = c) :
    pyMax c xs = c := by
  induction xs with
  | nil => rfl
  | cons x rest ih =>
      have hx : x = c := hall x (by simp)
      have : ∀ y ∈ rest, y = c := fun y hy => hall y (by simp [hy])
      simp [pyMax, hx, List.foldl_cons] at ih ⊢
      simpa [pyMax] using ih this

/-! ## C1 — merge-by-query in `EvaluationLogger.log_to_json` -/

/-- C1 (counterexample): the claim fails on the code.  `log_to_json` only
merges into the *last* persisted record; after logging
`{"query": "a", "x": "1"}`, then `{"query": "b"}`, then
`{"query": "a", "y": "2"}` into an empty log, the log holds two records
with query `"a"`, not one. -/
theorem log_to_json_not_merge_across_queries :
    countQuery
      (log_to_json (log_to_json (log_to_json ([] : List (Record String))
        [("query", "a"), ("x", "1")]) [("query", "b")]) [("query", "a"), ("y", "2")]) "a" = 2 ∧
    countQuery
      (log_to_json (log_to_json (log_to_json ([] : List (Record String))
        [("query", "a"), ("x", "1")]) [("query", "b")]) [("query", "a"), ("y", "2")]) "a" ≠ 1 := by
  constructor
  · rfl
  · decide

/-- C1 (amended): if no record with query `q` has been logged yet and two
records with query `q` are logged consecutively (so the first is still the
last entry when the second arrives), the log afterwards holds exactly one
record for `q`: the `dict.update`-merge of the two, whose fields are the
union of both records' fields with overlapping fields taking the second
write's value. -/
theorem log_to_json_merge_consecutive {V : Type} [DecidableEq V]
    (L : List (Record V)) (r₁ r₂ : Record V) (q : V)
    (h₁ : dictGet r₁ "query" = some q) (h₂ : dictGet r₂ "query" = some q)
    (hL : countQuery L q = 0) (hnd : (r₂.map Prod.fst).Nodup) :
    log_to_json (log_to_json L r₁) r₂ = L ++ [dictUpdate r₁ r₂] ∧
    countQuery (log_to_json (log_to_json L r₁) r₂) q = 1 ∧
    (∀ k, dictGet (dictUpdate r₁ r₂) k = (dictGet r₂ k <|> dictGet r₁ k)) := by
  have hnone := (countQuery_eq_zero_iff L q).mp hL
  have step₁ : log_to_json L r₁ = L ++ [r₁] := by
    apply log_to_json_append
    intro r hr
    rw [h₁]
    exact hnone r hr
  have step₂ : log_to_json (log_to_json L r₁) r₂ = L ++ [dictUpdate r₁ r₂] := by
    rw [step₁]
    unfold log_to_json
    rw [List.getLast?_concat]
    simp [h₁, h₂, List.dropLast_concat]
  refine ⟨step₂, ?_, fun k => dictGet_dictUpdate r₁ r₂ k hnd⟩
  rw [step₂]
  have hq : dictGet (dictUpdate r₁ r₂) "query" = some q := by
    rw [dictGet_dictUpdate r₁ r₂ _ hnd, h₂]
    rfl
  unfold countQuery at hL ⊢
  rw [List.countP_append, hL]
  simp [List.countP_cons, hq]

/-- C1 witness: the amended merge behaviour at a concrete log. -/
theorem log_to_json_merge_consecutive_witness :
    log_to_json (log_to_json [[("query", "b")]] [("query", "a"), ("x", "1")])
        [("query", "a"), ("y", "2")] =
      [[("query", "b")]] ++ [[("query", "a"), ("x", "1"), ("y", "2")]] ∧
    countQuery (log_to_json (log_to_json [[("query", "b")]] [("query", "a"), ("x", "1")])
        [("query", "a"), ("y", "2")]) "a" = 1 :=
  ⟨(log_to_json_merge_consecutive [[("query", "b")]] [("query", "a"), ("x", "1")]
      [("query", "a"), ("y", "2")] "a" rfl rfl (by decide) (by decide)).1,
   (log_to_json_merge_consecutive [[("query", "b")]] [("query", "a"), ("x", "1")]
      [("query", "a"), ("y", "2")] "a" rfl rfl (by decide) (by decide)).2.1⟩

/-- The sub-score dict carried by a `MetricOut.dict` result. -/
def metricDict : MetricOut → List (String × ℚ)
  | .dict d => d
  | _ => []

theorem pyRound2_intCast (z : ℤ) : pyRound2 (z : ℚ) = z := by
  unfold pyRound2 roundHalfEven
  have h1 : ((z : ℚ) * 100) = ((100 * z : ℤ) : ℚ) := by push_cast; ring
  rw [h1, Int.floor_intCast]
  simp only [sub_self]
  rw [if_pos (by norm_num)]
  push_cast
  field_simp

theorem pyRound2_ten : pyRound2 10 = 10 := by
  have h := pyRound2_intCast 10
  norm_num at h
  exact h

theorem pyRound2_zero : pyRound2 0 = 0 := by
  have h := pyRound2_intCast 0
  norm_num at h
  exact h

/-- All-equal raw BM25 scores hit the degenerate branch of the min-max
normalisation: every normalised score is 10. -/
theorem bm25NormalizedScores_all_eq (c : ℚ) (rest : List ℚ)
    (hrest : ∀ x ∈ rest, x = c) :
    bm25NormalizedScores (c :: rest) = List.replicate (c :: rest).length 10 := by
  have h1 : bm25NormalizedScores (c :: rest) =
      if pyMax c rest = pyMin c rest then (c :: rest).map (fun _ => (10 : ℚ))
      else (c :: rest).map
        (fun s => 10 * (s - pyMin c rest) / (pyMax c rest - pyMin c rest)) := rfl
  rw [h1, pyMin_all_eq c rest hrest, pyMax_all_eq c rest hrest, if_pos rfl]
  simp [List.map_const', List.replicate_succ]

/-! ## C2 — all-equal BM25 scores normalise to 10 in
`compute_context_precision` -/

/-- C2: for a non-empty retrieved-chunk list whose raw BM25 scores are
all equal (including the all-zero case), every min-max-normalised score
equals 10, and the `bm25_score` reported by `compute_context_precision`
equals 10. -/
theorem context_precision_bm25_all_equal_ten
    (cosine_sim : ℚ) (chunks : List String) (scores : List ℚ) (c : ℚ)
    (hchunks : chunks ≠ []) (hscores : scores ≠ [])
    (hall : ∀ s ∈ scores, s = c) :
    bm25NormalizedScores scores = List.replicate scores.length 10 ∧
    dictGet (metricDict (compute_context_precision cosine_sim scores chunks).1)
      "bm25_score" = some 10 := by
  obtain ⟨s₀, rest, rfl⟩ := List.exists_cons_of_ne_nil hscores
  have hs₀ : s₀ = c := hall s₀ (by simp)
  subst hs₀
  have hrest : ∀ x ∈ rest, x = s₀ := fun x hx => hall x (by simp [hx])
  have hnorm := bm25NormalizedScores_all_eq s₀ rest hrest
  have hlen : (((s₀ :: rest).length : ℕ) : ℚ) ≠ 0 := Nat.cast_ne_zero.mpr (by simp)
  have havg : (bm25NormalizedScores (s₀ :: rest)).sum /
      ((bm25NormalizedScores (s₀ :: rest)).length : ℚ) = 10 := by
    rw [hnorm, List.sum_replicate, List.length_replicate, nsmul_eq_mul,
      mul_comm, mul_div_assoc, div_self hlen, mul_one]
  refine ⟨hnorm, ?_⟩
  unfold compute_context_precision
  rw [if_neg hchunks]
  simp only [metricDict, dictGet]
  simp [havg, pyRound2_ten]

/-- C2 witness: three chunks whose raw BM25 scores are all zero. -/
theorem context_precision_bm25_all_equal_ten_witness :
    bm25NormalizedScores [0, 0, 0] = List.replicate 3 10 ∧
    dictGet (metricDict (compute_context_precision (1/2) [0, 0, 0] ["a", "b", "c"]).1)
      "bm25_score" = some 10 :=
  context_precision_bm25_all_equal_ten (1/2) ["a", "b", "c"] [0, 0, 0] 0
    (by simp) (by simp) (by intro s hs; simpa using hs)

/-! ## C10 — the chunkwise metric's opposite all-zero convention -/

/-- C10: in `compute_context_precision_chunkwise`, a non-empty score set
whose maximum BM25 score is 0 yields BM25 precision fraction `0.0` (and a
reported `chunkwise_bm25_precision` of 0) — the opposite convention to
`compute_context_precision`, where an all-zero score set normalises every
score to 10. -/
theorem chunkwise_bm25_zero_convention
    (s₀ : ℚ) (rest : List ℚ) (cos_sims : List ℚ) (chunks : List String) (t : ℚ)
    (hchunks : chunks ≠ []) (hmax : pyMax s₀ rest = 0) :
    bm25PrecisionFraction (s₀ :: rest) = 0 ∧
    dictGet (metricDict
        (compute_context_precision_chunkwise cos_sims (s₀ :: rest) chunks t).1)
      "chunkwise_bm25_precision" = some 0 ∧
    ((∀ s ∈ s₀ :: rest, s = 0) →
      bm25NormalizedScores (s₀ :: rest) = List.replicate (s₀ :: rest).length 10) := by
  have hfrac : bm25PrecisionFraction (s₀ :: rest) = 0 := by
    unfold bm25PrecisionFraction
    simp [hmax]
  refine ⟨hfrac, ?_, ?_⟩
  · unfold compute_context_precision_chunkwise
    rw [if_neg hchunks]
    simp only [metricDict, dictGet]
    simp [hfrac, pyRound2_zero]
  · intro hz
    have hs₀ : s₀ = 0 := hz s₀ (by simp)
    subst hs₀
    exact bm25NormalizedScores_all_eq 0 rest
      (fun x hx => hz x (List.mem_cons_of_mem _ hx))

/-- C10 witness: three chunks, all BM25 scores zero. -/
theorem chunkwise_bm25_zero_convention_witness :
    bm25PrecisionFraction [0, 0, 0] = 0 ∧
    dictGet (metricDict
        (compute_context_precision_chunkwise [1, 1, 1] [0, 0, 0] ["a", "b", "c"] (3/10)).1)
      "chunkwise_bm25_precision" = some 0 :=
  ⟨(chunkwise_bm25_zero_convention 0 [0, 0] [1, 1, 1] ["a", "b", "c"] (3/10)
      (by simp) (by simp [pyMax])).1,
   (chunkwise_bm25_zero_convention 0 [0, 0] [1, 1, 1] ["a", "b", "c"] (3/10)
      (by simp) (by simp [pyMax])).2.1⟩

/-! ## C3 — failure isolation in the batch driver -/

/-- C3: the claim is right about the intent but the code breaks it.
`EvaluationLogger` defines no `log_error` method, so the `except` branch
of `evaluate_entry` — the code that should record a query-keyed error
entry and keep the batch going — itself raises `AttributeError`, which
`pool.map` re-raises in the parent: one failing query halts the batch.
(The sequential driver `test_retrieval.py` has no `try/except` at all.) -/
theorem batch_driver_error_entry_halts_batch :
    loggerHasMethod "log_error" = false ∧
    evaluate_entry (V := String) (.error (.other "boom")) =
      .error (.attributeError "EvaluationLogger object has no attribute log_error") ∧
    run_batch (V := String)
        [.ok [("query", "q0")], .error (.other "boom"), .ok [("query", "q1")]] =
      .error (.attributeError "EvaluationLogger object has no attribute log_error") :=
  ⟨rfl, rfl, rfl⟩

/-! ## C4 — judge-invoker exhaustion returns an error sentinel -/

/-- C4: when all 3 attempts of `ChatGPTEvaluationModel.evaluate` fail,
`evaluate` returns the error string `f"Error: {e}"` (with the last
attempt's message) after exactly 3 calls instead of raising; and
`_handle_llm_exception` distinguishes resource exhaustion (`"FDTKE"` iff
the lower-cased message contains `"resource has been exhausted"`) from a
generic failure (`"Error"` in every other case). -/
theorem judge_exhaustion_error_sentinel
    (api : Nat → ApiAttempt) (m₀ m₁ m₂ : String)
    (h₀ : api 0 = .fail m₀) (h₁ : api 1 = .fail m₁) (h₂ : api 2 = .fail m₂) :
    chatgptEvaluate api = ("Error: " ++ m₂, 3, [2, 4]) ∧
    (∀ e, handle_llm_exception e = "FDTKE" ∨ handle_llm_exception e = "Error") ∧
    (∀ e, handle_llm_exception e = "FDTKE" ↔
      strContains (pyLower e) "resource has been exhausted" = true) := by
  refine ⟨?_, ?_, ?_⟩
  · simp [chatgptEvaluate, chatgptEvalFrom, h₀, h₁, h₂]
  · intro e
    unfold handle_llm_exception
    by_cases h : strContains (pyLower e) "resource has been exhausted" = true
    · exact Or.inl (by simp [h])
    · exact Or.inr (by simp [h])
  · intro e
    unfold handle_llm_exception
    by_cases h : strContains (pyLower e) "resource has been exhausted" = true
    · simp [h]
    · simp [h]

/-- C4 witness: three failing attempts; a quota message maps to
`"FDTKE"`, a generic one to `"Error"`. -/
theorem judge_exhaustion_error_sentinel_witness :
    chatgptEvaluate (fun _ => ApiAttempt.fail "quota") = ("Error: " ++ "quota", 3, [2, 4]) ∧
    handle_llm_exception "429 Resource has been exhausted" = "FDTKE" ∧
    handle_llm_exception "request timed out" = "Error" := by
  have h := judge_exhaustion_error_sentinel (fun _ => ApiAttempt.fail "quota")
    "quota" "quota" "quota" rfl rfl rfl
  refine ⟨h.1, ?_, ?_⟩
  · exact (h.2.2 "429 Resource has been exhausted").mpr (by decide)
  · rcases h.2.1 "request timed out" with hf | he
    · exact absurd ((h.2.2 "request timed out").mp hf) (by decide)
    · exact he

/-! ## C5 — `_parse_llm_score`'s regex fallback raises `AttributeError` -/

/-- C5: the claim fails on the code.  For a response that is not a plain
float (the judge returning `"Score: 7"`), the documented fallback would
extract `7`; the code instead evaluates `response.text` on a `str`,
raising `AttributeError` — it neither applies the regex to the response
nor reaches the `-1` sentinel.  Direct float parses still succeed. -/
theorem parse_llm_score_fallback_raises :
    parse_llm_score "Score: 7" =
      .error (.attributeError "str object has no attribute text") ∧
    specParseFallbackScore "Score: 7" = 7 ∧
    parse_llm_score " 8 " = .ok 8 := by
  refine ⟨rfl, ?_, rfl⟩
  show ((natOfDigits ['7'] : ℕ) : ℚ) = 7
  have h7 : natOfDigits ['7'] = 7 := by decide
  rw [h7]
  norm_num

/-! ## C6 — judge-invoker retry succeeds on the third attempt -/

/-- C6: if the first two attempts fail and the third succeeds, both judge
invokers return the stripped successful content, make exactly 3 calls to
the underlying endpoint, and sleep the doubling delays 2 then 4 between
attempts. -/
theorem judge_retry_third_attempt_success
    (api : Nat → ApiAttempt) (m₀ m₁ c : String)
    (h₀ : api 0 = .fail m₀) (h₁ : api 1 = .fail m₁) (h₂ : api 2 = .ok c) :
    chatgptEvaluate api = (pyStrip c, 3, [2, 4]) ∧
    ∀ (http : Nat → HttpAttempt) (e₀ c₁ t₁ c₂ t₂ : String) (s₁ : Nat),
      s₁ ≠ 200 → http 0 = .exn e₀ → http 1 = .resp s₁ c₁ t₁ →
      http 2 = .resp 200 c₂ t₂ →
      lmstudioEvaluate http = (pyStrip c₂, 3, [2, 4]) := by
  constructor
  · simp [chatgptEvaluate, chatgptEvalFrom, h₀, h₁, h₂]
  · intro http e₀ c₁ t₁ c₂ t₂ s₁ hs g₀ g₁ g₂
    simp [lmstudioEvaluate, lmstudioEvalFrom, g₀, g₁, g₂, hs]

/-- C6 witness: concrete oracles failing twice then succeeding. -/
theorem judge_retry_third_attempt_success_witness :
    chatgptEvaluate
        (fun i => if i = 0 then .fail "a" else if i = 1 then .fail "b" else .ok " 9 ") =
      ("9", 3, [2, 4]) ∧
    lmstudioEvaluate
        (fun i => if i = 0 then .exn "conn" else if i = 1 then .resp 500 "" "ise"
          else .resp 200 " 7 " "ok") =
      ("7", 3, [2, 4]) := by
  have h := judge_retry_third_attempt_success
    (fun i => if i = 0 then .fail "a" else if i = 1 then .fail "b" else .ok " 9 ")
    "a" "b" " 9 " rfl rfl rfl
  constructor
  · rw [h.1]; rfl
  · rw [h.2 (fun i => if i = 0 then .exn "conn" else if i = 1 then .resp 500 "" "ise"
        else .resp 200 " 7 " "ok") "conn" "" "ise" " 7 " "ok" 500 (by decide) rfl rfl rfl]
    rfl

/-! ## C7 — negative retrieval flags require failing both tests -/

theorem negativeRetrievalFlags_getElem (cos_sims : List ℚ) (t bt : ℚ) :
    ∀ (bm25_scores : List ℚ) (i : Nat) (c b : ℚ),
      cos_sims[i]? = some c → bm25_scores[i]? = some b →
      (negativeRetrievalFlags cos_sims bm25_scores t bt)[i]? =
        some (decide (c < t) && decide (b < bt)) := by
  induction cos_sims with
  | nil => intro bm25_scores i c b hc hb; simp at hc
  | cons c₀ cs ih =>
      intro bm25_scores i c b hc hb
      cases bm25_scores with
      | nil => simp at hb
      | cons b₀ bs =>
          cases i with
          | zero =>
              rw [List.getElem?_cons_zero] at hc hb
              injection hc with hc
              injection hb with hb
              subst hc; subst hb
              simp [negativeRetrievalFlags, List.zipWith_cons_cons]
          | succ n =>
              rw [List.getElem?_cons_succ] at hc hb
              simp only [negativeRetrievalFlags, List.zipWith_cons_cons,
                List.getElem?_cons_succ]
              exact ih bs n c b hc hb

/-- C7: in `compute_negative_retrieval`, the `i`-th retrieved chunk is
flagged irrelevant iff its cosine similarity is below `threshold` AND its
BM25 score is below `bm25_threshold`; a chunk failing only one of the two
tests is never flagged. -/
theorem negative_retrieval_requires_both_tests
    (cos_sims bm25_scores : List ℚ) (t bt : ℚ) (i : Nat) (c b : ℚ)
    (hc : cos_sims[i]? = some c) (hb : bm25_scores[i]? = some b) :
    ((negativeRetrievalFlags cos_sims bm25_scores t bt)[i]? = some true ↔
      (c < t ∧ b < bt)) ∧
    ((c < t ∧ ¬ b < bt) →
      (negativeRetrievalFlags cos_sims bm25_scores t bt)[i]? = some false) ∧
    ((¬ c < t ∧ b < bt) →
      (negativeRetrievalFlags cos_sims bm25_scores t bt)[i]? = some false) := by
  have h := negativeRetrievalFlags_getElem cos_sims t bt bm25_scores i c b hc hb
  refine ⟨?_, ?_, ?_⟩
  · rw [h]; simp
  · rintro ⟨h₁, h₂⟩; rw [h]; simp [h₁, h₂]
  · rintro ⟨h₁, h₂⟩; rw [h]; simp [h₁, h₂]

/-- C7 witness: a chunk below only the cosine threshold is not flagged;
a chunk below both is. -/
theorem negative_retrieval_requires_both_tests_witness :
    ((negativeRetrievalFlags [1/10] [1/2] (2/10) (1/10))[0]? = some true ↔
      ((1:ℚ)/10 < 2/10 ∧ (1:ℚ)/2 < 1/10)) ∧
    (((1:ℚ)/10 < 2/10 ∧ ¬ (1:ℚ)/2 < 1/10) →
      (negativeRetrievalFlags [1/10] [1/2] (2/10) (1/10))[0]? = some false) :=
  ⟨(negative_retrieval_requires_both_tests [1/10] [1/2] (2/10) (1/10) 0 (1/10) (1/2)
      rfl rfl).1,
   (negative_retrieval_requires_both_tests [1/10] [1/2] (2/10) (1/10) 0 (1/10) (1/2)
      rfl rfl).2.1⟩

/-! ## C8 — empty-chunk-list behaviour of the metric functions -/

/-- C8 (counterexample): the claim fails on
`FaithfulnessEvaluator.compute_blobwise_similarity`, which has no
empty-list guard: on an empty chunk list it computes a similarity against
the empty concatenation (here 10, for an encoder reporting similarity 1)
and emits no warning, instead of returning a documented default with a
warning. -/
theorem blobwise_empty_list_no_guard :
    compute_blobwise_similarity (fun _ _ => 1) "q" [] "ans" = (10, false) ∧
    (compute_blobwise_similarity (fun _ _ => 1) "q" [] "ans").2 ≠ true := by
  constructor
  · show ((1 : ℚ) * 10, false) = (10, false)
    norm_num
  · simp [compute_blobwise_similarity]

/-- C8 (amended): every metric function with an empty-chunk-list guard
returns its documented default (`0.0`, the zeroed dict, `"Error"`, or the
negative-retrieval sentinel `10.0`) and logs a warning when the retrieved
chunk list is empty, without raising; `compute_blobwise_similarity` lacks
such a guard. -/
theorem metric_functions_empty_input_defaults
    (cosine_sim : ℚ) (scores cos_sims gt_sims : List ℚ) (rc rr rb t bt : ℚ)
    (m : MetricOut) (sim : String → String → ℚ) (ans : String) :
    compute_context_precision cosine_sim scores [] = (.num 0, true) ∧
    compute_context_recall rc rr rb [] = (.num 0, true) ∧
    compute_context_precision_chunkwise cos_sims scores [] t =
      (.dict [("chunkwise_cosine_precision", 0), ("chunkwise_bm25_precision", 0),
              ("combined_precision", 0)], true) ∧
    compute_context_recall_chunkwise gt_sims [] = (.num 0, true) ∧
    llmMetricEmptyGuard m [] = (.str "Error", true) ∧
    compute_negative_retrieval cos_sims scores [] t bt = (10, true) ∧
    compute_chunkwise_similarity sim ans [] =
      (.dict [("avg_chunkwise_score", 0), ("max_chunkwise_score", 0)], true) :=
  ⟨rfl, rfl, rfl, rfl, rfl, rfl, rfl⟩

/-- C8 witness: the guarded defaults at concrete arguments. -/
theorem metric_functions_empty_input_defaults_witness :
    compute_context_precision (1/2) [1, 2] [] = (.num 0, true) ∧
    compute_chunkwise_similarity (fun _ _ => 1) "ans" [] =
      (.dict [("avg_chunkwise_score", 0), ("max_chunkwise_score", 0)], true) :=
  ⟨(metric_functions_empty_input_defaults (1/2) [1, 2] [] [] 0 0 0 0 0
      (.num 0) (fun _ _ => 1) "ans").1,
   (metric_functions_empty_input_defaults (1/2) [1, 2] [] [] 0 0 0 0 0
      (.num 0) (fun _ _ => 1) "ans").2.2.2.2.2.2⟩

/-! ## C9 — the 3-argument call to `compute_faithful_coverage` -/

/-- C9: for every query with a non-empty retrieved-chunk list,
`evaluate_faithfulness` raises `TypeError` before returning a record:
line 52 passes three positional arguments (`query`,
`ground_truth_answer`, `generated_answer`) to
`compute_faithful_coverage`, which accepts only two besides `self`. -/
theorem evaluate_faithfulness_raises_type_error
    (sim rougeL bert : String → String → ℚ) (jr cr q gt ga : String)
    (chunks : List String) (h : chunks ≠ []) :
    evaluate_faithfulness sim rougeL bert jr cr q gt chunks ga =
      .error (.typeError
        "compute_faithful_coverage takes 3 positional arguments but 4 were given") := by
  unfold evaluate_faithfulness
  rw [if_neg h]
  have hmsg : "compute_faithful_coverage takes 3 positional arguments but 4 were given" =
      "compute_faithful_coverage takes 3 positional arguments but "
        ++ toString ((3 : Nat) + 1) ++ " were given" := by decide
  rw [hmsg]
  rfl

/-- C9 witness: one retrieved chunk, concrete collaborators. -/
theorem evaluate_faithfulness_raises_type_error_witness :
    evaluate_faithfulness (fun _ _ => 1) (fun _ _ => 1) (fun _ _ => 1)
      "8" "9" "q" "gt" ["c"] "ans" =
      .error (.typeError
        "compute_faithful_coverage takes 3 positional arguments but 4 were given") :=
  evaluate_faithfulness_raises_type_error (fun _ _ => 1) (fun _ _ => 1) (fun _ _ => 1)
    "8" "9" "q" "gt" "ans" ["c"] (by decide)

end RagEval
